import Mathlib

/-
Shallow embedding of the core logic of the Shortcuty CLI:
credential resolution (config.py), input validators and request-payload
construction (api_client.py), and the self-update flow (updater.py, cli.py).

Machine-level conventions used throughout:
- Python strings are Lean String values; character-level work is done on
  String.data (a List Char).
- Python None is Option.none; a Python function that returns a string or
  None becomes Option String.
- Python exceptions become Except values whose error constructors name the
  distinct raise sites of the source.
- File contents are lists of byte values (List Nat).
-/

/-
======================== config.py : get_api_key ========================
-/

/-- Exceptions that escape the source uncaught on the paths modelled here:
AttributeError (attribute access on an object without it, e.g. .get on a
non-dict) and TypeError (an operation applied to an operand of the wrong
type). Neither appears in any except clause of config.py or updater.py. -/
inductive PyRuntimeError
  | attributeError
  | typeError
  deriving DecidableEq

/-- State of the on-disk config file (CONFIG_FILE in config.py) as observed
by get_api_key: missing; unreadable or invalid JSON (both swallowed by the
except (json.JSONDecodeError, IOError) branch); valid JSON that is not an
object (a list, string, number, boolean or null), on which config.get does
not exist; or a parsed JSON object whose api_key entry is either absent/null
(none) or a string. -/
inductive ConfigFile
  | missing
  | unreadable
  | nonObject
  | parsed (apiKey : Option String)

/-- Python truthiness of an optional string: None and the empty string are
falsy, every other string is truthy. -/
def truthy : Option String → Bool
  | none => false
  | some s => !(s == "")

/-- The config-file fallback of get_api_key: config.get("api_key") when the
file exists and parses as a JSON object; None when the file is missing or
the read/parse fails (those exceptions are caught and fall through to
return None); and an AttributeError escaping uncaught when the file parses
as JSON without being an object, since only the decode and I/O errors are in
the except tuple. -/
def configFileKey : ConfigFile → Except PyRuntimeError (Option String)
  | ConfigFile.parsed k => Except.ok k
  | ConfigFile.nonObject => Except.error PyRuntimeError.attributeError
  | _ => Except.ok none

/-- config.py get_api_key: returns the CLI argument if truthy, else the
environment variable value if truthy, else falls through to the config-file
lookup (which can raise). envKey models os.getenv(ENV_VAR): none when the
variable is unset. -/
def get_api_key (cliApiKey : Option String) (envKey : Option String)
    (cfg : ConfigFile) : Except PyRuntimeError (Option String) :=
  if truthy cliApiKey then Except.ok cliApiKey
  else if truthy envKey then Except.ok envKey
  else configFileKey cfg

/-
=================== api_client.py : validate_icloud_url ===================
-/

/-- A character matched by the regex class [a-zA-Z0-9]. -/
def isAsciiAlnum (c : Char) : Bool :=
  (('a' ≤ c) && (c ≤ 'z')) || (('A' ≤ c) && (c ≤ 'Z')) || (('0' ≤ c) && (c ≤ '9'))

/-- The branch of the URL regex without the optional www. group. -/
def icloudPrefixBare : List Char := "https://icloud.com/shortcuts/".data

/-- The branch of the URL regex with the optional www. group. -/
def icloudPrefixWww : List Char := "https://www.icloud.com/shortcuts/".data

/-- re.match of a pattern of the shape (literal prefix)[a-zA-Z0-9]+ :
the input starts with the literal prefix and the next character exists and
is alphanumeric (re.match anchors at the start only, so anything may follow). -/
def matchPrefixAlnum (p l : List Char) : Bool :=
  p.isPrefixOf l &&
    (match l.drop p.length with
     | [] => false
     | c :: _ => isAsciiAlnum c)

/-- Validation failures of api_client.py, named after the error kinds of the
spec; the source raises ShortcutyAPIError with a distinguishing message at
each of these sites. -/
inductive ValidationError
  | invalidURLFormat
  | invalidUUIDFormat
  deriving DecidableEq

/-- api_client.py validate_icloud_url: re.match against
https://(www\.)?icloud\.com/shortcuts/[a-zA-Z0-9]+ anchored at the start. -/
def validate_icloud_url (url : String) : Except ValidationError Unit :=
  if matchPrefixAlnum icloudPrefixBare url.data
      || matchPrefixAlnum icloudPrefixWww url.data then
    Except.ok ()
  else
    Except.error ValidationError.invalidURLFormat

/-
============================ shared list lemmas ============================
-/

/-- Boolean prefix test in terms of an explicit tail. -/
lemma isPrefixOf_true_iff (p l : List Char) :
    p.isPrefixOf l = true ↔ ∃ t, p ++ t = l := by
  rw [ List.isPrefixOf_iff_prefix]
  exact Iff.rfl

lemma matchPrefixAlnum_iff (p l : List Char) :
    matchPrefixAlnum p l = true ↔
      ∃ c rest, l = p ++ c :: rest ∧ isAsciiAlnum c = true := by
  unfold matchPrefixAlnum
  rw [Bool.and_eq_true]
  constructor
  · rintro ⟨hp, hm⟩
    obtain ⟨t, rfl⟩ := (isPrefixOf_true_iff p l).mp hp
    rw [List.drop_left] at hm
    cases t with
    | nil => exact absurd hm (by simp)
    | cons c rest => exact ⟨c, rest, rfl, hm⟩
  · rintro ⟨c, rest, rfl, hc⟩
    refine ⟨(isPrefixOf_true_iff p _).mpr ⟨c :: rest, rfl⟩, ?_⟩
    rw [List.drop_left]
    exact hc

/-
=============================== theorems: C1 ===============================
-/

/-- C1 counterexample: with no CLI argument and no environment variable,
get_api_key still returns a key stored in the on-disk config file, so the
result is not absent regardless of other state, contradicting the claim that
credential resolution consults no on-disk store; and a config file parsing
as JSON without being an object makes the lookup raise an uncaught
AttributeError, contradicting the claim that it never raises. -/
theorem get_api_key_config_counterexample :
    get_api_key none none (ConfigFile.parsed (some "K")) = Except.ok (some "K") ∧
    (Except.ok (some "K") : Except PyRuntimeError (Option String)) ≠ Except.ok none ∧
    get_api_key none none ConfigFile.nonObject =
      Except.error PyRuntimeError.attributeError := by
  exact ⟨rfl, by simp, rfl⟩

/-- C1 (amended): get_api_key returns the explicit CLI argument when it is
non-None and non-empty; otherwise the environment value when set and
non-empty; otherwise the api_key entry of the config file when that file
exists and parses as a JSON object, with read and JSON-decode failures
swallowed (returning None) — but when the config file parses as JSON without
being an object, config.get raises an AttributeError that no handler
catches, and that is the only way the fallback raises. -/
theorem get_api_key_priority :
    ∀ (cli env : Option String) (cfg : ConfigFile),
      (truthy cli = true → get_api_key cli env cfg = Except.ok cli) ∧
      (truthy cli = false → truthy env = true →
        get_api_key cli env cfg = Except.ok env) ∧
      (truthy cli = false → truthy env = false →
        get_api_key cli env cfg = configFileKey cfg) ∧
      (truthy cli = false → truthy env = false →
        (get_api_key cli env cfg = Except.error PyRuntimeError.attributeError ↔
          cfg = ConfigFile.nonObject)) := by
  intro cli env cfg
  have hfall : truthy cli = false → truthy env = false →
      get_api_key cli env cfg = configFileKey cfg := by
    intro h1 h2
    simp [get_api_key, h1, h2]
  refine ⟨fun h => ?_, fun h1 h2 => ?_, hfall, fun h1 h2 => ?_⟩
  · simp [get_api_key, h]
  · simp [get_api_key, h1, h2]
  · rw [hfall h1 h2]
    cases cfg <;> simp [configFileKey]

/-- Witness for the amended C1 theorem at a concrete input: explicit argument
absent, environment set to E, config file missing. -/
theorem get_api_key_priority_witness :
    get_api_key none (some "E") ConfigFile.missing = Except.ok (some "E") :=
  (get_api_key_priority none (some "E") ConfigFile.missing).2.1 (by decide) (by decide)

/-
=============================== theorems: C9 ===============================
-/

/-- C9: validate_icloud_url succeeds exactly on strings that start with
https://icloud.com/shortcuts/ or https://www.icloud.com/shortcuts/ followed
by at least one alphanumeric character, with arbitrary trailing characters
allowed (prefix match); the bare prefix with an empty id fails with
InvalidURLFormat, and a URL with a query string after the id passes. -/
theorem validate_icloud_url_spec :
    (∀ s : String, validate_icloud_url s = Except.ok () ↔
      ∃ c rest,
        (s.data = icloudPrefixBare ++ c :: rest ∨
         s.data = icloudPrefixWww ++ c :: rest) ∧ isAsciiAlnum c = true) ∧
    validate_icloud_url "https://icloud.com/shortcuts/" =
      Except.error ValidationError.invalidURLFormat ∧
    validate_icloud_url "https://icloud.com/shortcuts/abc123?x=1" = Except.ok () := by
  refine ⟨fun s => ?_, rfl, rfl⟩
  unfold validate_icloud_url
  constructor
  · intro h
    have hb : (matchPrefixAlnum icloudPrefixBare s.data
        || matchPrefixAlnum icloudPrefixWww s.data) = true := by
      by_contra hc
      rw [if_neg (by simpa using hc)] at h
      exact absurd h (by simp)
    rcases Bool.or_eq_true _ _ |>.mp hb with h1 | h2
    · obtain ⟨c, rest, hrw, hc⟩ := (matchPrefixAlnum_iff _ _).mp h1
      exact ⟨c, rest, Or.inl hrw, hc⟩
    · obtain ⟨c, rest, hrw, hc⟩ := (matchPrefixAlnum_iff _ _).mp h2
      exact ⟨c, rest, Or.inr hrw, hc⟩
  · rintro ⟨c, rest, hrw | hrw, hc⟩
    · rw [if_pos]
      rw [Bool.or_eq_true]
      exact Or.inl ((matchPrefixAlnum_iff _ _).mpr ⟨c, rest, hrw, hc⟩)
    · rw [if_pos]
      rw [Bool.or_eq_true]
      exact Or.inr ((matchPrefixAlnum_iff _ _).mpr ⟨c, rest, hrw, hc⟩)

/-
=================== api_client.py : validate_image_file ===================
-/

/-- ASCII lowering of one character, modelling Python str.lower() on the
ASCII extensions this validator compares against. -/
def asciiLowerChar (c : Char) : Char :=
  if ('A' ≤ c) && (c ≤ 'Z') then Char.ofNat (c.toNat + 32) else c

/-- ASCII lowering of a character list. -/
def asciiLower (l : List Char) : List Char := l.map asciiLowerChar

/-- PNG magic bytes 89 50 4E 47 0D 0A 1A 0A. -/
def png_signature : List Nat := [0x89, 0x50, 0x4E, 0x47, 0x0D, 0x0A, 0x1A, 0x0A]

/-- JPEG magic bytes FF D8 FF. -/
def jpeg_signature : List Nat := [0xFF, 0xD8, 0xFF]

/-- The distinct raise sites of validate_image_file, in source order:
unsupported extension, header shorter than 3 bytes, signature matching
neither family, and extension disagreeing with the detected family. -/
inductive ImageError
  | invalidFileType
  | tooSmall
  | signatureMismatch
  | extensionMismatch
  deriving DecidableEq

/-- api_client.py validate_image_file, on a file modelled as its extension
(os.path.splitext result, lowercased in the source) and its readable byte
contents; header is the first 8 bytes as returned by f.read(8). -/
def validate_image_file (ext : String) (content : List Nat) : Except ImageError Unit :=
  let e := asciiLower ext.data
  if !(e == ".png".data || e == ".jpg".data || e == ".jpeg".data) then
    Except.error ImageError.invalidFileType
  else
    let header := content.take 8
    if header.length < 3 then Except.error ImageError.tooSmall
    else
      let isPng := header == png_signature
      let isJpeg := header.take 3 == jpeg_signature
      if !(isPng || isJpeg) then Except.error ImageError.signatureMismatch
      else if e == ".png".data && !isPng then Except.error ImageError.extensionMismatch
      else if (e == ".jpg".data || e == ".jpeg".data) && !isJpeg then
        Except.error ImageError.extensionMismatch
      else Except.ok ()

/-
=============================== theorems: C6 ===============================
-/


/-- Success of validate_image_file characterized by extension and signature. -/
lemma validate_image_file_ok_iff (ext : String) (content : List Nat) :
    validate_image_file ext content = Except.ok () ↔
      ((asciiLower ext.data = ".png".data ∧ content.take 8 = png_signature) ∨
       ((asciiLower ext.data = ".jpg".data ∨ asciiLower ext.data = ".jpeg".data) ∧
        content.take 3 = jpeg_signature)) := by
  have htk : (content.take 8).take 3 = content.take 3 := by
    rw [List.take_take]
    norm_num
  simp only [validate_image_file]
  split_ifs with hA hB hC hD hE
  · simp only [Bool.not_eq_eq_eq_not, Bool.not_true, Bool.or_eq_false_iff,
      beq_eq_false_iff_ne, ne_eq] at hA
    simp only [reduceCtorEq, false_iff]
    rintro (⟨h, -⟩ | ⟨h | h, -⟩) <;> tauto
  · simp only [reduceCtorEq, false_iff]
    rw [List.length_take] at hB
    have hlen : content.length < 3 := by omega
    rintro (⟨-, h⟩ | ⟨-, h⟩)
    · have := congrArg List.length h
      rw [List.length_take] at this
      simp only [png_signature] at this
      simp at this
      omega
    · have := congrArg List.length h
      rw [List.length_take] at this
      simp only [jpeg_signature] at this
      simp at this
      omega
  · simp only [Bool.not_eq_eq_eq_not, Bool.not_true, Bool.or_eq_false_iff,
      beq_eq_false_iff_ne, ne_eq] at hC
    simp only [reduceCtorEq, false_iff]
    rw [htk] at hC
    rintro (⟨-, h⟩ | ⟨-, h⟩) <;> tauto
  · simp only [Bool.and_eq_true, Bool.not_eq_true', beq_iff_eq,
      beq_eq_false_iff_ne, ne_eq] at hD
    simp only [reduceCtorEq, false_iff]
    obtain ⟨hpng, hnot⟩ := hD
    rintro (⟨-, h⟩ | ⟨he, -⟩)
    · exact hnot h
    · rw [hpng] at he
      rcases he with he | he <;> revert he <;> decide
  · simp only [Bool.and_eq_true, Bool.not_eq_true', Bool.or_eq_true,
      beq_iff_eq, beq_eq_false_iff_ne, ne_eq] at hE
    simp only [reduceCtorEq, false_iff]
    obtain ⟨hjpg, hnot⟩ := hE
    rw [htk] at hnot
    rintro (⟨he, -⟩ | ⟨-, h⟩)
    · rcases hjpg with hj | hj <;> rw [hj] at he <;> revert he <;> decide
    · exact hnot h
  · simp only [true_iff]
    simp only [Bool.not_eq_eq_eq_not, Bool.not_true, Bool.or_eq_false_iff,
      Bool.not_eq_false] at hA hC
    simp only [Bool.and_eq_true, Bool.not_eq_true', beq_iff_eq, not_and,
      Bool.not_eq_false, Bool.or_eq_true] at hD hE
    rw [htk] at hE
    by_cases hp : asciiLower ext.data = ".png".data
    · exact Or.inl ⟨hp, hD hp⟩
    · by_cases hj : asciiLower ext.data = ".jpg".data
      · exact Or.inr ⟨Or.inl hj, hE (Or.inl hj)⟩
      · by_cases hje : asciiLower ext.data = ".jpeg".data
        · exact Or.inr ⟨Or.inr hje, hE (Or.inr hje)⟩
        · exact absurd ⟨⟨beq_eq_false_iff_ne.mpr hp, beq_eq_false_iff_ne.mpr hj⟩,
            beq_eq_false_iff_ne.mpr hje⟩ hA

/-- C6: validate_image_file succeeds iff the lowercased extension is .png and
the first 8 bytes are exactly the PNG signature, or the lowercased extension
is .jpg or .jpeg and the first 3 bytes are the JPEG signature; a .png file
carrying the JPEG signature fails with the extension/signature mismatch
error; a supported extension with fewer than 3 readable bytes fails as too
small; and the extension check is case-insensitive. The function is pure:
it performs no network call and mutates nothing. -/
theorem validate_image_file_spec :
    (∀ (ext : String) (content : List Nat),
      validate_image_file ext content = Except.ok () ↔
        ((asciiLower ext.data = ".png".data ∧ content.take 8 = png_signature) ∨
         ((asciiLower ext.data = ".jpg".data ∨ asciiLower ext.data = ".jpeg".data) ∧
          content.take 3 = jpeg_signature))) ∧
    validate_image_file ".png" [0xFF, 0xD8, 0xFF, 0x00] =
      Except.error ImageError.extensionMismatch ∧
    (∀ (ext : String) (content : List Nat),
      (asciiLower ext.data = ".png".data ∨ asciiLower ext.data = ".jpg".data ∨
        asciiLower ext.data = ".jpeg".data) →
      content.length < 3 →
      validate_image_file ext content = Except.error ImageError.tooSmall) ∧
    validate_image_file ".PNG" [0x89, 0x50, 0x4E, 0x47, 0x0D, 0x0A, 0x1A, 0x0A] =
      Except.ok () := by
  refine ⟨validate_image_file_ok_iff, rfl, fun ext content hext hlen => ?_, rfl⟩
  simp only [validate_image_file]
  have hA : (asciiLower ext.data == ".png".data || asciiLower ext.data == ".jpg".data
      || asciiLower ext.data == ".jpeg".data) = true := by
    rcases hext with h | h | h <;> simp [h]
  rw [hA]
  have hB : (content.take 8).length < 3 := by
    rw [List.length_take]
    omega
  simp only [Bool.not_true, Bool.false_eq_true, if_false, if_pos hB]

/-- Witness for the C6 theorem at concrete inputs: the too-small clause
applied to a .png file holding two bytes. -/
theorem validate_image_file_spec_witness :
    validate_image_file ".png" [0x89, 0x50] = Except.error ImageError.tooSmall :=
  validate_image_file_spec.2.2.1 ".png" [0x89, 0x50] (Or.inl (by decide)) (by decide)

/-
====================== api_client.py : validate_uuid ======================

validate_uuid delegates to the Python standard library constructor
uuid.UUID(s), whose hex branch is:
    hex = hex.replace("urn:", "").replace("uuid:", "")
    hex = hex.strip("\x7b\x7d").replace("-", "")
    if len(hex) != 32: raise ValueError(...)
    int = int_(hex, 16)
accepting the value when the 32-character remainder parses as a base-16
integer (int() additionally strips surrounding whitespace and accepts an
optional sign, an optional 0x prefix, and single underscores between
digits); any ValueError is turned into the InvalidUUIDFormat error.
The resulting 128-bit range check cannot fail on a 32-character
non-negative hex string, so it is not modelled.
-/

/-- Fuel-indexed scan behind removeSubstr; the fuel only certifies
termination (one unit per position scanned or skipped) and is always called
with at least the length of the list, so it never runs out. -/
def removeSubstrAux (pat : List Char) : Nat → List Char → List Char
  | _, [] => []
  | 0, l => l
  | fuel + 1, c :: rest =>
    if pat.isPrefixOf (c :: rest) = true ∧ pat ≠ [] then
      removeSubstrAux pat fuel ((c :: rest).drop pat.length)
    else
      c :: removeSubstrAux pat fuel rest

/-- Python str.replace(pat, "") for a nonempty pattern: delete the leftmost
occurrence of pat, continue after it, and keep scanning; characters that do
not start an occurrence are kept. (The source only ever deletes the nonempty
patterns urn: and uuid:, so the empty-pattern guard keeps the scan total.) -/
def removeSubstr (pat : List Char) (l : List Char) : List Char :=
  removeSubstrAux pat l.length l

/-- An ASCII hexadecimal digit (the digits accepted by int(x, 16)). -/
def isHexChar (c : Char) : Bool :=
  (('0' ≤ c) && (c ≤ '9')) || (('a' ≤ c) && (c ≤ 'f')) || (('A' ≤ c) && (c ≤ 'F'))

/-- ASCII whitespace, as stripped from the ends by Python int(). -/
def isWsChar (c : Char) : Bool :=
  (c == ' ') || (c == '\t') || (c == '\n') || (c == '\r') ||
  (c == Char.ofNat 11) || (c == Char.ofNat 12)

/-- A curly brace, the two characters stripped from the ends by strip. -/
def isBraceChar (c : Char) : Bool :=
  (c == Char.ofNat 123) || (c == Char.ofNat 125)

/-- Python strip of a character class: remove matching characters from both
ends of the list. -/
def pyStrip (p : Char → Bool) (l : List Char) : List Char :=
  ((l.dropWhile p).reverse.dropWhile p).reverse

/-- Optional sign accepted at the front by int(). -/
def dropSign (l : List Char) : List Char :=
  match l with
  | [] => []
  | c :: r => if c = '+' ∨ c = '-' then r else c :: r

/-- One optional underscore, as permitted directly after the 0x prefix. -/
def dropUnderscore (l : List Char) : List Char :=
  match l with
  | [] => []
  | c :: r => if c = '_' then r else c :: r

/-- Optional 0x / 0X prefix accepted by int(x, 16), with one optional
underscore after it. -/
def drop0x (l : List Char) : List Char :=
  match l with
  | c0 :: c1 :: r =>
    if c0 = '0' ∧ (c1 = 'x' ∨ c1 = 'X') then dropUnderscore r else l
  | _ => l

/-- Digit run after the first digit: hex digits with single underscores
allowed between digits (no trailing or doubled underscore). -/
def hexTail : List Char → Bool
  | [] => true
  | c :: r =>
    if c = '_' then
      match r with
      | [] => false
      | d :: _ => isHexChar d && hexTail r
    else isHexChar c && hexTail r

/-- Nonempty underscore-separated hex digit run. -/
def hexBody : List Char → Bool
  | [] => false
  | c :: r => isHexChar c && hexTail r

/-- Success of Python int(x, 16) on the string x: strip whitespace, allow an
optional sign and an optional 0x prefix, then require a nonempty hex digit
run with single underscores only between digits. -/
def pyIntHex16Ok (l : List Char) : Bool :=
  hexBody (drop0x (dropSign (pyStrip isWsChar l)))

/-- The urn: pattern deleted by uuid.UUID. -/
def urnChars : List Char := "urn:".data

/-- The uuid: pattern deleted by uuid.UUID. -/
def uuidChars : List Char := "uuid:".data

/-- The normalization uuid.UUID applies to its hex argument before the
length-32 check and the base-16 parse: delete urn: and uuid: occurrences,
strip surrounding braces, delete every hyphen. -/
def pyUuidNormalize (s : String) : List Char :=
  ((pyStrip isBraceChar
      (removeSubstr uuidChars (removeSubstr urnChars s.data))).filter
    (fun c => !(c == '-')))

/-- api_client.py validate_uuid: uuid.UUID(uuid) succeeds iff the normalized
string has exactly 32 characters and parses in base 16; every ValueError
becomes the InvalidUUIDFormat error. -/
def validate_uuid (uuid : String) : Except ValidationError Unit :=
  let n := pyUuidNormalize uuid
  if (n.length == 32) && pyIntHex16Ok n then Except.ok ()
  else Except.error ValidationError.invalidUUIDFormat

/-- Exactly n hex digits consumed from the front, returning the remainder. -/
def hexGroup : Nat → List Char → Option (List Char)
  | 0, l => some l
  | _ + 1, [] => none
  | n + 1, c :: rest => if isHexChar c then hexGroup n rest else none

/-- Hyphen-separated groups of hex digits of the given lengths, covering the
whole list. -/
def canonGroups : List Nat → List Char → Bool
  | [], l => l.isEmpty
  | [n], l => hexGroup n l == some []
  | n :: ns, l =>
    match hexGroup n l with
    | some (c :: r) => c == '-' && canonGroups ns r
    | _ => false

/-- The canonical UUID text representation the spec describes: five
hyphen-separated groups of 8-4-4-4-12 hex digits. -/
def isCanonicalUuid (s : String) : Bool := canonGroups [8, 4, 4, 4, 12] s.data

/-- removeSubstrAux never changes a list that contains no character of the
pattern (witnessed through one shared character x). -/
lemma removeSubstrAux_eq_self (pat : List Char) (x : Char) (hx : x ∈ pat) :
    ∀ (fuel : Nat) (l : List Char), x ∉ l → removeSubstrAux pat fuel l = l := by
  intro fuel
  induction fuel with
  | zero => intro l _; cases l <;> rfl
  | succ n ih =>
    intro l hl
    cases l with
    | nil => rfl
    | cons c rest =>
      have hneg : ¬(pat.isPrefixOf (c :: rest) = true ∧ pat ≠ []) := by
        rintro ⟨hpre, -⟩
        obtain ⟨t, ht⟩ := (isPrefixOf_true_iff _ _).mp hpre
        exact hl (ht ▸ List.mem_append_left t hx)
      show (if pat.isPrefixOf (c :: rest) = true ∧ pat ≠ [] then
          removeSubstrAux pat n ((c :: rest).drop pat.length)
        else c :: removeSubstrAux pat n rest) = c :: rest
      rw [if_neg hneg, ih rest (fun hr => hl (List.mem_cons_of_mem c hr))]

/-- removeSubstr never changes a list that lacks some character of the
pattern. -/
lemma removeSubstr_eq_self (pat l : List Char) (x : Char) (hx : x ∈ pat)
    (hl : x ∉ l) : removeSubstr pat l = l :=
  removeSubstrAux_eq_self pat x hx l.length l hl

lemma dropWhile_eq_self_of_forall (p : Char → Bool) (l : List Char)
    (h : ∀ c ∈ l, p c = false) : l.dropWhile p = l := by
  cases l with
  | nil => rfl
  | cons c r =>
    rw [List.dropWhile_cons, h c (List.mem_cons_self c r)]
    simp

lemma pyStrip_eq_self (p : Char → Bool) (l : List Char)
    (h : ∀ c ∈ l, p c = false) : pyStrip p l = l := by
  unfold pyStrip
  rw [dropWhile_eq_self_of_forall p l h,
    dropWhile_eq_self_of_forall p l.reverse
      (fun c hc => h c (List.mem_reverse.mp hc)),
    List.reverse_reverse]

lemma hexGroup_eq_some :
    ∀ (n : Nat) (l r : List Char), hexGroup n l = some r →
      ∃ p, l = p ++ r ∧ p.length = n ∧ ∀ c ∈ p, isHexChar c = true := by
  intro n
  induction n with
  | zero =>
    intro l r h
    simp only [hexGroup, Option.some.injEq] at h
    exact ⟨[], by rw [h]; rfl, rfl, by simp⟩
  | succ n ih =>
    intro l r h
    cases l with
    | nil => simp [hexGroup] at h
    | cons c rest =>
      simp only [hexGroup] at h
      by_cases hc : isHexChar c = true
      · rw [if_pos hc] at h
        obtain ⟨p, rfl, hlen, hhex⟩ := ih rest r h
        refine ⟨c :: p, rfl, by simp [hlen], ?_⟩
        intro d hd
        rcases List.mem_cons.mp hd with rfl | hd
        · exact hc
        · exact hhex d hd
      · rw [if_neg hc] at h
        simp at h

lemma canonGroups_cons (n m : Nat) (ns : List Nat) (l : List Char)
    (h : canonGroups (n :: m :: ns) l = true) :
    ∃ p r, l = p ++ '-' :: r ∧ p.length = n ∧ (∀ c ∈ p, isHexChar c = true) ∧
      canonGroups (m :: ns) r = true := by
  simp only [canonGroups] at h
  rcases heq : hexGroup n l with _ | r0
  · rw [heq] at h
    simp at h
  · rw [heq] at h
    cases r0 with
    | nil => simp at h
    | cons c r =>
      have h' : (c == '-' && canonGroups (m :: ns) r) = true := h
      obtain ⟨hc, hrec⟩ := Bool.and_eq_true _ _ |>.mp h'
      rw [beq_iff_eq] at hc
      subst hc
      obtain ⟨p, hp, hlen, hhex⟩ := hexGroup_eq_some n l ('-' :: r) heq
      exact ⟨p, r, hp, hlen, hhex, hrec⟩

lemma canonGroups_last (n : Nat) (l : List Char) (h : canonGroups [n] l = true) :
    l.length = n ∧ ∀ c ∈ l, isHexChar c = true := by
  simp only [canonGroups, beq_iff_eq] at h
  obtain ⟨p, hp, hlen, hhex⟩ := hexGroup_eq_some n l [] h
  rw [List.append_nil] at hp
  subst hp
  exact ⟨hlen, hhex⟩

lemma hex_not_ws (c : Char) (hc : isHexChar c = true) : isWsChar c = false := by
  cases hB : isWsChar c with
  | false => rfl
  | true =>
    exfalso
    simp only [isWsChar, Bool.or_eq_true, beq_iff_eq] at hB
    rcases hB with ((((rfl | rfl) | rfl) | rfl) | rfl) | rfl <;>
      exact absurd hc (by decide)

lemma hex_not_brace (c : Char) (hc : isHexChar c = true) : isBraceChar c = false := by
  cases hB : isBraceChar c with
  | false => rfl
  | true =>
    exfalso
    simp only [isBraceChar, Bool.or_eq_true, beq_iff_eq] at hB
    rcases hB with rfl | rfl <;> exact absurd hc (by decide)

lemma hexTail_of_all (l : List Char) (h : ∀ c ∈ l, isHexChar c = true) :
    hexTail l = true := by
  induction l with
  | nil => rfl
  | cons c r ih =>
    have hc := h c (List.mem_cons_self c r)
    have hne : ¬(c = '_') := by
      intro he
      rw [he] at hc
      exact absurd hc (by decide)
    have hstep : hexTail (c :: r) = (isHexChar c && hexTail r) := if_neg hne
    rw [hstep, hc, ih (fun d hd => h d (List.mem_cons_of_mem c hd))]
    rfl

lemma pyIntHex16Ok_of_all_hex (l : List Char) (h2 : 2 ≤ l.length)
    (h : ∀ c ∈ l, isHexChar c = true) : pyIntHex16Ok l = true := by
  have hws : pyStrip isWsChar l = l :=
    pyStrip_eq_self _ _ (fun c hc => hex_not_ws c (h c hc))
  rcases l with _ | ⟨c0, l1⟩
  · simp at h2
  rcases l1 with _ | ⟨c1, r⟩
  · simp at h2
  have hc0 := h c0 (by simp)
  have hc1 := h c1 (by simp)
  unfold pyIntHex16Ok
  rw [hws]
  have hsign : dropSign (c0 :: c1 :: r) = c0 :: c1 :: r := by
    simp only [dropSign]
    rw [if_neg]
    rintro (rfl | rfl) <;> exact absurd hc0 (by decide)
  rw [hsign]
  have h0x : drop0x (c0 :: c1 :: r) = c0 :: c1 :: r := by
    simp only [drop0x]
    rw [if_neg]
    rintro ⟨-, rfl | rfl⟩ <;> exact absurd hc1 (by decide)
  rw [h0x]
  have hbody : hexBody (c0 :: c1 :: r) = (isHexChar c0 && hexTail (c1 :: r)) := rfl
  rw [hbody, hc0,
    hexTail_of_all (c1 :: r) (fun d hd => h d (List.mem_cons_of_mem c0 hd))]
  rfl

/-- Every canonical UUID string is accepted by validate_uuid: the
normalization leaves it untouched except for deleting the four hyphens, and
the 32 remaining hex digits parse in base 16. -/
lemma validate_uuid_ok_of_canonical (s : String) (h : isCanonicalUuid s = true) :
    validate_uuid s = Except.ok () := by
  unfold isCanonicalUuid at h
  obtain ⟨g1, r1, hd1, hl1, hh1, h⟩ := canonGroups_cons 8 4 [4, 4, 12] s.data h
  obtain ⟨g2, r2, hd2, hl2, hh2, h⟩ := canonGroups_cons 4 4 [4, 12] r1 h
  obtain ⟨g3, r3, hd3, hl3, hh3, h⟩ := canonGroups_cons 4 4 [12] r2 h
  obtain ⟨g4, r4, hd4, hl4, hh4, h⟩ := canonGroups_cons 4 12 [] r3 h
  obtain ⟨hl5, hh5⟩ := canonGroups_last 12 r4 h
  have hsd : s.data = g1 ++ '-' :: (g2 ++ '-' :: (g3 ++ '-' :: (g4 ++ '-' :: r4))) := by
    rw [hd1, hd2, hd3, hd4]
  have hmem : ∀ c ∈ s.data, isHexChar c = true ∨ c = '-' := by
    intro c hc
    rw [hsd] at hc
    simp only [List.mem_append, List.mem_cons] at hc
    rcases hc with hc | rfl | hc | rfl | hc | rfl | hc | rfl | hc
    · exact Or.inl (hh1 c hc)
    · exact Or.inr rfl
    · exact Or.inl (hh2 c hc)
    · exact Or.inr rfl
    · exact Or.inl (hh3 c hc)
    · exact Or.inr rfl
    · exact Or.inl (hh4 c hc)
    · exact Or.inr rfl
    · exact Or.inl (hh5 c hc)
  have hcol : ':' ∉ s.data := by
    intro hc
    rcases hmem ':' hc with h' | h'
    · exact absurd h' (by decide)
    · exact absurd h' (by decide)
  have h1 : removeSubstr urnChars s.data = s.data :=
    removeSubstr_eq_self urnChars s.data ':' (by decide) hcol
  have h2 : removeSubstr uuidChars s.data = s.data :=
    removeSubstr_eq_self uuidChars s.data ':' (by decide) hcol
  have h3 : pyStrip isBraceChar s.data = s.data := by
    apply pyStrip_eq_self
    intro c hc
    rcases hmem c hc with h' | rfl
    · exact hex_not_brace c h'
    · decide
  have hfil : ∀ g : List Char, (∀ c ∈ g, isHexChar c = true) →
      g.filter (fun c => !(c == '-')) = g := by
    intro g hg
    apply List.filter_eq_self.mpr
    intro c hc
    have hx := hg c hc
    have hne : c ≠ '-' := by
      intro he
      rw [he] at hx
      exact absurd hx (by decide)
    simp [hne]
  have hnorm : pyUuidNormalize s = g1 ++ (g2 ++ (g3 ++ (g4 ++ r4))) := by
    unfold pyUuidNormalize
    rw [h1, h2, h3, hsd]
    simp only [List.filter_append, List.filter_cons]
    simp [hfil g1 hh1, hfil g2 hh2, hfil g3 hh3, hfil g4 hh4, hfil r4 hh5]
  have hlen : (g1 ++ (g2 ++ (g3 ++ (g4 ++ r4)))).length = 32 := by
    simp [hl1, hl2, hl3, hl4, hl5]
  have hall : ∀ c ∈ g1 ++ (g2 ++ (g3 ++ (g4 ++ r4))), isHexChar c = true := by
    intro c hc
    simp only [List.mem_append] at hc
    rcases hc with hc | hc | hc | hc | hc
    · exact hh1 c hc
    · exact hh2 c hc
    · exact hh3 c hc
    · exact hh4 c hc
    · exact hh5 c hc
  have hcond : ((pyUuidNormalize s).length == 32 && pyIntHex16Ok (pyUuidNormalize s)) = true := by
    rw [hnorm, hlen, pyIntHex16Ok_of_all_hex _ (by omega) hall]
    rfl
  simp only [validate_uuid]
  rw [hcond]
  rfl

/-
=============================== theorems: C3 ===============================
-/

/-- C3 counterexample: validate_uuid accepts the unhyphenated 32-hex-digit
string, which is not the canonical hyphenated representation, so acceptance
is not limited to the canonical 8-4-4-4-12 form. -/
theorem validate_uuid_counterexample :
    validate_uuid "550e8400e29b41d4a716446655440000" = Except.ok () ∧
    isCanonicalUuid "550e8400e29b41d4a716446655440000" = false :=
  ⟨rfl, rfl⟩

/-- C3 (amended): validate_uuid accepts exactly what the Python uuid.UUID
constructor accepts, a strict superset of the canonical representation:
every canonical 8-4-4-4-12 hyphenated UUID succeeds (case-insensitive), and
so do brace-wrapped and urn:uuid:-prefixed variants, while strings that do
not normalize to 32 base-16-parsable characters, such as not-a-uuid, fail
with the InvalidUUIDFormat error. -/
theorem validate_uuid_spec :
    (∀ s : String, isCanonicalUuid s = true → validate_uuid s = Except.ok ()) ∧
    validate_uuid "550e8400-e29b-41d4-a716-446655440000" = Except.ok () ∧
    validate_uuid "550E8400-E29B-41D4-A716-446655440000" = Except.ok () ∧
    validate_uuid "not-a-uuid" = Except.error ValidationError.invalidUUIDFormat ∧
    validate_uuid "\x7b550e8400-e29b-41d4-a716-446655440000\x7d" = Except.ok () ∧
    validate_uuid "urn:uuid:550e8400-e29b-41d4-a716-446655440000" = Except.ok () :=
  ⟨validate_uuid_ok_of_canonical, rfl, rfl, rfl, rfl, rfl⟩

/-- Witness for the amended C3 theorem: the canonical-input clause applied at
a concrete canonical UUID. -/
theorem validate_uuid_spec_witness :
    validate_uuid "123e4567-e89b-12d3-a456-426614174000" = Except.ok () :=
  validate_uuid_spec.1 "123e4567-e89b-12d3-a456-426614174000" rfl

/-
==================== api_client.py : ShortcutyAPIClient._request ====================
-/

/-- Python substring test (the in operator on strings): the pattern occurs
somewhere in the list. -/
def containsSubstr (pat : List Char) : List Char → Bool
  | [] => pat.isEmpty
  | c :: rest => pat.isPrefixOf (c :: rest) || containsSubstr pat rest

/-- A parsed JSON response body as response.json() can return it: an object
(field/value pairs, values modelled as strings), a string, an array (string
elements), or a non-iterable scalar (number, boolean or null). The shape
matters because _request probes the body with the expression
"message" in error_data, whose meaning depends on the type: key lookup on an
object, substring test on a string, element membership on an array, and an
immediate TypeError on a scalar. -/
inductive JsonBody
  | obj (fields : List (String × String))
  | str (s : String)
  | arr (elems : List String)
  | scalar
  deriving DecidableEq

/-- Outcome of session.request as _request observes it: a transport-level
requests.RequestException (DNS failure, connection refused, timeout), or an
HTTP response with a status code and a body that either parses as JSON or
does not parse (none). -/
inductive HttpResult
  | transportFailure (cause : String)
  | response (status : Nat) (body : Option JsonBody)

/-- Cause chained onto the raised ShortcutyAPIError by the from clause: the
underlying requests exception for the transport branch, the HTTPError
holding the status for the HTTP branch. -/
inductive PyCause
  | requestException (detail : String)
  | httpError (status : Nat)
  deriving DecidableEq

/-- Errors escaping _request: the ShortcutyAPIError class api_client.py
defines and raises (with its message and chained cause), and the TypeError
that the error-body probing raises and no handler catches — the except
tuple (ValueError, KeyError, JSONDecodeError) does not include TypeError. -/
inductive PyError
  | shortcutyAPIError (msg : String) (cause : PyCause)
  | typeError
  deriving DecidableEq

/-- The Python class of a raised error. -/
def errClassName : PyError → String
  | PyError.shortcutyAPIError _ _ => "ShortcutyAPIError"
  | PyError.typeError => "TypeError"

/-- First field of the parsed JSON error object with the given name
(dict lookup in the source; field names in a JSON object are unique). -/
def lookupField (k : String) : List (String × String) → Option String
  | [] => none
  | (k', v) :: rest => if k' = k then some v else lookupField k rest

/-- The default error text used when the body is not JSON or lacks the
probed fields. -/
def defaultApiErrorMsg (status : Nat) : String :=
  "API request failed: " ++ toString status

/-- Error text extraction of _request for an HTTPError, following the
Python semantics of "message" in error_data and error_data[...] per body
type: an unparsable body keeps the default text (the JSONDecodeError is
caught); an object yields its message field, else its error field, else the
default; a string body raises TypeError on the subscript when message or
error occurs in it as a substring (the in test succeeds, then
error_data["message"] subscripts a str with a str), else keeps the default;
an array likewise raises TypeError when it has a message or error element,
else keeps the default; a scalar raises TypeError at the in test itself.
The TypeError is not in the except tuple and escapes. -/
def extract_error_msg (status : Nat) (body : Option JsonBody) : Except PyError String :=
  match body with
  | none => Except.ok (defaultApiErrorMsg status)
  | some (JsonBody.obj fields) =>
    match lookupField "message" fields with
    | some m => Except.ok m
    | none =>
      match lookupField "error" fields with
      | some m => Except.ok m
      | none => Except.ok (defaultApiErrorMsg status)
  | some (JsonBody.str s) =>
    if containsSubstr "message".data s.data then Except.error PyError.typeError
    else if containsSubstr "error".data s.data then Except.error PyError.typeError
    else Except.ok (defaultApiErrorMsg status)
  | some (JsonBody.arr elems) =>
    if elems.contains "message" then Except.error PyError.typeError
    else if elems.contains "error" then Except.error PyError.typeError
    else Except.ok (defaultApiErrorMsg status)
  | some JsonBody.scalar => Except.error PyError.typeError

/-- api_client.py _request error handling: raise_for_status turns a 4xx/5xx
status into an HTTPError whose handler raises ShortcutyAPIError with the
extracted message — unless the extraction itself raises TypeError, which
escapes; any other requests exception (transport failures, and a 2xx body
that fails to parse as JSON) is caught by the RequestException handler which
raises ShortcutyAPIError with the Request failed: text. -/
def api_request (r : HttpResult) : Except PyError JsonBody :=
  match r with
  | HttpResult.transportFailure cause =>
    Except.error (PyError.shortcutyAPIError ("Request failed: " ++ cause)
      (PyCause.requestException cause))
  | HttpResult.response status body =>
    if 400 ≤ status ∧ status < 600 then
      match extract_error_msg status body with
      | Except.ok msg =>
        Except.error (PyError.shortcutyAPIError msg (PyCause.httpError status))
      | Except.error e => Except.error e
    else
      match body with
      | some b => Except.ok b
      | none =>
        Except.error (PyError.shortcutyAPIError ("Request failed: " ++ "invalid JSON")
          (PyCause.requestException "invalid JSON"))

/-
=============================== theorems: C2 ===============================
-/

/-- C2 counterexample: a connection-refused transport failure and an HTTP 500
failure both come back as the single class ShortcutyAPIError — the two
failure modes are not distinguishable by error type, only by message and
chained cause. -/
theorem api_request_error_class_counterexample :
    api_request (HttpResult.transportFailure "connection refused") =
      Except.error (PyError.shortcutyAPIError ("Request failed: " ++ "connection refused")
        (PyCause.requestException "connection refused")) ∧
    api_request (HttpResult.response 500 none) =
      Except.error (PyError.shortcutyAPIError ("API request failed: " ++ toString 500)
        (PyCause.httpError 500)) ∧
    errClassName (PyError.shortcutyAPIError ("Request failed: " ++ "connection refused")
        (PyCause.requestException "connection refused")) =
      errClassName (PyError.shortcutyAPIError ("API request failed: " ++ toString 500)
        (PyCause.httpError 500)) :=
  ⟨rfl, rfl, rfl⟩

/-- C2 (amended): a transport failure raises ShortcutyAPIError with the
message Request failed: followed by the underlying cause, which is chained;
an HTTP failure (status 400-599) raises ShortcutyAPIError with the extracted
message only when the extraction succeeds — a JSON object body yields its
message or error field or the default text, and so does an unparsable body —
while a JSON string or array body containing message or error, and any
scalar body, make the extraction raise an uncaught TypeError instead, which
_request propagates. The two ShortcutyAPIError modes are told apart by
message and cause, not by type. -/
theorem api_request_error_taxonomy :
    (∀ cause : String,
      api_request (HttpResult.transportFailure cause) =
        Except.error (PyError.shortcutyAPIError ("Request failed: " ++ cause)
          (PyCause.requestException cause))) ∧
    (∀ (status : Nat) (body : Option JsonBody) (msg : String),
      400 ≤ status → status < 600 →
      extract_error_msg status body = Except.ok msg →
      api_request (HttpResult.response status body) =
        Except.error (PyError.shortcutyAPIError msg (PyCause.httpError status))) ∧
    (∀ (status : Nat) (body : Option JsonBody),
      400 ≤ status → status < 600 →
      extract_error_msg status body = Except.error PyError.typeError →
      api_request (HttpResult.response status body) = Except.error PyError.typeError) ∧
    (∀ (status : Nat) (fields : List (String × String)),
      extract_error_msg status (some (JsonBody.obj fields)) ≠
        Except.error PyError.typeError) ∧
    extract_error_msg 404 (some (JsonBody.obj [("message", "no such shortcut")])) =
      Except.ok "no such shortcut" ∧
    extract_error_msg 404 (some (JsonBody.obj [("error", "bad token")])) =
      Except.ok "bad token" ∧
    extract_error_msg 404 (some (JsonBody.obj [("detail", "x")])) =
      Except.ok (defaultApiErrorMsg 404) ∧
    extract_error_msg 500 none = Except.ok (defaultApiErrorMsg 500) ∧
    extract_error_msg 500 (some (JsonBody.str "an error occurred")) =
      Except.error PyError.typeError ∧
    extract_error_msg 500 (some (JsonBody.str "service unavailable")) =
      Except.ok (defaultApiErrorMsg 500) ∧
    extract_error_msg 500 (some JsonBody.scalar) = Except.error PyError.typeError ∧
    api_request (HttpResult.response 500 (some (JsonBody.str "an error occurred"))) =
      Except.error PyError.typeError := by
  refine ⟨fun cause => rfl, fun status body msg h1 h2 hex => ?_,
    fun status body h1 h2 hex => ?_, fun status fields => ?_,
    rfl, rfl, rfl, rfl, rfl, rfl, rfl, rfl⟩
  · simp only [api_request]
    rw [if_pos ⟨h1, h2⟩, hex]
  · simp only [api_request]
    rw [if_pos ⟨h1, h2⟩, hex]
  · rcases hm : lookupField "message" fields with _ | m
    · rcases he : lookupField "error" fields with _ | m2 <;>
        simp [extract_error_msg, hm, he]
    · simp [extract_error_msg, hm]

/-- Witness for the amended C2 theorem: the successful-extraction clause
applied at a 404 with a JSON object error body. -/
theorem api_request_error_taxonomy_witness :
    api_request (HttpResult.response 404 (some (JsonBody.obj [("message", "no such shortcut")]))) =
      Except.error (PyError.shortcutyAPIError "no such shortcut" (PyCause.httpError 404)) :=
  api_request_error_taxonomy.2.1 404 (some (JsonBody.obj [("message", "no such shortcut")]))
    "no such shortcut" (by decide) (by decide) rfl

/-
========= api_client.py : create_shortcut / update_shortcut payloads =========
-/

/-- JSON values appearing in the request payloads: strings and booleans. -/
inductive JVal
  | str (s : String)
  | bool (b : Bool)
  deriving DecidableEq

/-- One optional field of the payload dict: the source appends the pair only
when the argument is not None. -/
def optField (k : String) (f : α → JVal) : Option α → List (String × JVal)
  | some v => [(k, f v)]
  | none => []

/-- The keys such a field contributes. -/
def optKey (k : String) : Option α → List String
  | some _ => [k]
  | none => []

/-- api_client.py create_shortcut request payload: sharing_url always, then
each optional argument in source order, added only when not None. (The uuid
of the created shortcut does not exist yet; sharing_url is validated before
this dict is built.) -/
def create_shortcut_payload (sharingUrl : String) (description : Option String)
    (category : Option String) (requiresIos26Ai : Option Bool)
    (updaterType : Option String) (submit : Option Bool) : List (String × JVal) :=
  [("sharing_url", JVal.str sharingUrl)]
    ++ optField "description" JVal.str description
    ++ optField "category" JVal.str category
    ++ optField "requires_ios26_ai" JVal.bool requiresIos26Ai
    ++ optField "updater_type" JVal.str updaterType
    ++ optField "submit" JVal.bool submit

/-- api_client.py update_shortcut request payload: each optional argument in
source order, added only when not None; the validated uuid travels in the
URL path, not in the payload. -/
def update_shortcut_payload (name description sharingUrl category : Option String)
    (requiresIos26Ai : Option Bool)
    (updaterType newVersion changelog : Option String) : List (String × JVal) :=
  optField "name" JVal.str name
    ++ optField "description" JVal.str description
    ++ optField "sharing_url" JVal.str sharingUrl
    ++ optField "category" JVal.str category
    ++ optField "requires_ios26_ai" JVal.bool requiresIos26Ai
    ++ optField "updater_type" JVal.str updaterType
    ++ optField "new_version" JVal.str newVersion
    ++ optField "changelog" JVal.str changelog

lemma optField_map_fst (k : String) (f : α → JVal) (o : Option α) :
    (optField k f o).map Prod.fst = optKey k o := by
  cases o <;> rfl

/-
=============================== theorems: C5 ===============================
-/

/-- C5: the create and update payloads hold exactly the keys of the
non-None arguments, in source order — an omitted optional argument
contributes no key at all (absence, not null or empty); with only
sharing_url supplied, create sends exactly that one field, and supplying
category as well adds exactly that one field with its value. -/
theorem payload_fields_spec :
    (∀ (sharingUrl : String) (description category : Option String)
        (requiresIos26Ai : Option Bool) (updaterType : Option String)
        (submit : Option Bool),
      (create_shortcut_payload sharingUrl description category requiresIos26Ai
          updaterType submit).map Prod.fst =
        ["sharing_url"] ++ optKey "description" description
          ++ optKey "category" category
          ++ optKey "requires_ios26_ai" requiresIos26Ai
          ++ optKey "updater_type" updaterType
          ++ optKey "submit" submit) ∧
    (∀ (name description sharingUrl category : Option String)
        (requiresIos26Ai : Option Bool)
        (updaterType newVersion changelog : Option String),
      (update_shortcut_payload name description sharingUrl category
          requiresIos26Ai updaterType newVersion changelog).map Prod.fst =
        optKey "name" name ++ optKey "description" description
          ++ optKey "sharing_url" sharingUrl ++ optKey "category" category
          ++ optKey "requires_ios26_ai" requiresIos26Ai
          ++ optKey "updater_type" updaterType
          ++ optKey "new_version" newVersion
          ++ optKey "changelog" changelog) ∧
    create_shortcut_payload "u" none none none none none =
      [("sharing_url", JVal.str "u")] ∧
    create_shortcut_payload "u" none (some "Productivity") none none none =
      [("sharing_url", JVal.str "u"), ("category", JVal.str "Productivity")] := by
  refine ⟨fun sharingUrl description category requiresIos26Ai updaterType submit => ?_,
    fun name description sharingUrl category requiresIos26Ai
      updaterType newVersion changelog => ?_, rfl, rfl⟩
  · simp [create_shortcut_payload, optField_map_fst]
  · simp [update_shortcut_payload, optField_map_fst]

/-
===================== updater.py : check_for_updates =====================
-/

/-- Numeric value of a digit run. -/
def natOfDigits (l : List Char) : Nat :=
  l.foldl (fun a c => 10 * a + (c.toNat - 48)) 0

/-- Separator [-_.] accepted between version segments by the packaging
pattern. -/
def isSepChar (c : Char) : Bool := (c == '-') || (c == '_') || (c == '.')

/-- One optional separator, as in the pattern fragment [-_.]? . -/
def dropSep (l : List Char) : List Char :=
  match l with
  | c :: r => if isSepChar c then r else c :: r
  | [] => []

/-- First candidate token that is a prefix of the input, with the remainder;
candidates are listed longest first so the choice matches what the
backtracking regex alternation ends up accepting. -/
def matchTokens (cands : List (List Char)) (l : List Char) :
    Option (List Char × List Char) :=
  match cands with
  | [] => none
  | c :: cs => if c.isPrefixOf l then some (c, l.drop c.length) else matchTokens cs l

/-- The pre-release letters of the packaging pattern
(a|b|c|rc|alpha|beta|pre|preview), longest first. -/
def preLetterTokens : List (List Char) :=
  ["preview".data, "alpha".data, "beta".data, "pre".data, "rc".data,
   "a".data, "b".data, "c".data]

/-- packaging _parse_letter_version normalization of a pre-release letter:
alpha to a, beta to b, and c/pre/preview/rc to rc. -/
def normalizePreLetter (l : List Char) : String :=
  if l = "alpha".data ∨ l = "a".data then "a"
  else if l = "beta".data ∨ l = "b".data then "b"
  else "rc"

/-- The post-release letters of the packaging pattern (post|rev|r), longest
first; all normalize to post. -/
def postLetterTokens : List (List Char) := ["post".data, "rev".data, "r".data]

/-- The dev-release letter. -/
def devLetterTokens : List (List Char) := ["dev".data]

/-- One letter segment of the pattern, [-_.]? letter [-_.]? number?, with a
missing number read as 0 (packaging _parse_letter_version). -/
def parseLetterNum (tokens : List (List Char)) (l : List Char) :
    Option (List Char × Nat × List Char) :=
  match matchTokens tokens (dropSep l) with
  | none => none
  | some (letter, r) =>
    let r1 := dropSep r
    let ds := r1.takeWhile (fun c => c.isDigit)
    some (letter, if ds.isEmpty then 0 else natOfDigits ds,
      r1.dropWhile (fun c => c.isDigit))

/-- The optional pre-release segment, with its letter normalized. -/
def parsePre (l : List Char) : Option ((String × Nat) × List Char) :=
  match parseLetterNum preLetterTokens l with
  | none => none
  | some (letter, n, r) => some ((normalizePreLetter letter, n), r)

/-- The optional post-release segment: either the bare -N form or
[-_.]? (post|rev|r) [-_.]? N? . -/
def parsePost (l : List Char) : Option (Nat × List Char) :=
  match l with
  | '-' :: r =>
    let ds := r.takeWhile (fun c => c.isDigit)
    if ds.isEmpty then
      match parseLetterNum postLetterTokens l with
      | none => none
      | some (_, n, r2) => some (n, r2)
    else some (natOfDigits ds, r.dropWhile (fun c => c.isDigit))
  | _ =>
    match parseLetterNum postLetterTokens l with
    | none => none
    | some (_, n, r2) => some (n, r2)

/-- The optional dev segment, [-_.]? dev [-_.]? N? . -/
def parseDev (l : List Char) : Option (Nat × List Char) :=
  match parseLetterNum devLetterTokens l with
  | none => none
  | some (_, n, r) => some (n, r)

/-- Further release components: a run of .N groups, stopping before a dot
not followed by digits. The fuel (one unit per dot) only certifies
termination. -/
def releaseTail (fuel : Nat) (acc : List Nat) (l : List Char) : List Nat × List Char :=
  match fuel with
  | 0 => (acc.reverse, l)
  | fuel + 1 =>
    match l with
    | '.' :: r =>
      let ds := r.takeWhile (fun c => c.isDigit)
      if ds.isEmpty then (acc.reverse, '.' :: r)
      else releaseTail fuel (natOfDigits ds :: acc) (r.dropWhile (fun c => c.isDigit))
    | _ => (acc.reverse, l)

/-- One component of a local version segment: packaging turns each
dot/dash/underscore-separated part into an int when it is all digits and a
lowercased string otherwise. -/
inductive LocalPart
  | num (n : Nat)
  | str (s : String)
  deriving DecidableEq

/-- A character allowed inside a local part ([a-z0-9] after lowering). -/
def isLocalAlnum (c : Char) : Bool := c.isDigit || (('a' ≤ c) && (c ≤ 'z'))

/-- packaging _parse_local_version classification of one part. -/
def classifyLocalPart (p : List Char) : LocalPart :=
  if p.all (fun c => c.isDigit) then LocalPart.num (natOfDigits p)
  else LocalPart.str (String.mk p)

/-- The parts of a local segment, [a-z0-9]+ ([-_.][a-z0-9]+)*; a trailing
separator without a following part is left unconsumed (and then fails the
final end-of-input check). The fuel (one unit per separator) only certifies
termination. -/
def parseLocalParts (fuel : Nat) (l : List Char) :
    Option (List LocalPart × List Char) :=
  let p := l.takeWhile isLocalAlnum
  let rest := l.dropWhile isLocalAlnum
  if p.isEmpty then none
  else
    match rest with
    | c :: r =>
      if isSepChar c then
        match fuel with
        | 0 => none
        | fuel + 1 =>
          match parseLocalParts fuel r with
          | some (ps, rr) => some (classifyLocalPart p :: ps, rr)
          | none => some ([classifyLocalPart p], c :: r)
      else some ([classifyLocalPart p], c :: r)
    | [] => some ([classifyLocalPart p], [])

/-- A parsed PEP 440 version as packaging represents it: epoch, release
components, optional normalized pre-release, post-release and dev numbers,
and optional local segment. -/
structure PyVersion where
  epoch : Nat
  release : List Nat
  pre : Option (String × Nat)
  post : Option Nat
  dev : Option Nat
  localSeg : Option (List LocalPart)
  deriving DecidableEq

/-- Model of packaging.version.parse (the PEP 440 grammar packaging
compiles, case-insensitive with surrounding whitespace allowed):
an optional v, an optional epoch N!, a release N(.N)*, then optional
pre-release, post-release, dev and +local segments, and nothing else.
Strings the grammar rejects parse to none (InvalidVersion in the source,
caught by check_for_updates). -/
def parsePEP440 (l : List Char) : Option PyVersion :=
  let t0 := asciiLower (pyStrip isWsChar l)
  let t1 := match t0 with
    | 'v' :: r => r
    | r => r
  let eds := t1.takeWhile (fun c => c.isDigit)
  let erest := t1.dropWhile (fun c => c.isDigit)
  let ep : Nat × List Char :=
    match erest with
    | '!' :: r => if eds.isEmpty then (0, t1) else (natOfDigits eds, r)
    | _ => (0, t1)
  let t2 := ep.2
  let rds := t2.takeWhile (fun c => c.isDigit)
  if rds.isEmpty then none
  else
    let rt := releaseTail t2.length [] (t2.dropWhile (fun c => c.isDigit))
    let preR : Option (String × Nat) × List Char :=
      match parsePre rt.2 with
      | some (p, r) => (some p, r)
      | none => (none, rt.2)
    let postR : Option Nat × List Char :=
      match parsePost preR.2 with
      | some (p, r) => (some p, r)
      | none => (none, preR.2)
    let devR : Option Nat × List Char :=
      match parseDev postR.2 with
      | some (d, r) => (some d, r)
      | none => (none, postR.2)
    let locR : Option (List LocalPart) × List Char :=
      match devR.2 with
      | '+' :: r =>
        match parseLocalParts r.length r with
        | some (ps, rr) => (some ps, rr)
        | none => (none, devR.2)
      | _ => (none, devR.2)
    if locR.2.isEmpty then
      some ⟨ep.1, natOfDigits rds :: rt.1, preR.1, postR.1, devR.1, locR.1⟩
    else none

/-- packaging.version.parse on a character list. -/
def parseVersion (l : List Char) : Option PyVersion := parsePEP440 l

/-- packaging normalizes a release for comparison by dropping trailing zero
components. -/
def trimTrailingZeros (l : List Nat) : List Nat :=
  (l.reverse.dropWhile (fun n => n == 0)).reverse

/-- Three-way comparison of naturals. -/
def cmpNatO (a b : Nat) : Ordering :=
  if a < b then Ordering.lt else if b < a then Ordering.gt else Ordering.eq

/-- Lexicographic comparison of numeric component lists (Python tuple
comparison; a proper prefix is smaller). -/
def cmpListNat : List Nat → List Nat → Ordering
  | [], [] => Ordering.eq
  | [], _ :: _ => Ordering.lt
  | _ :: _, [] => Ordering.gt
  | a :: as, b :: bs => (cmpNatO a b).then (cmpListNat as bs)

/-- Lexicographic comparison of character lists (Python string comparison). -/
def cmpChars : List Char → List Char → Ordering
  | [], [] => Ordering.eq
  | [], _ :: _ => Ordering.lt
  | _ :: _, [] => Ordering.gt
  | a :: as, b :: bs =>
    if a < b then Ordering.lt else if b < a then Ordering.gt else cmpChars as bs

/-- String comparison through the underlying characters. -/
def cmpString (a b : String) : Ordering := cmpChars a.data b.data

/-- The pre-release component of the packaging comparison key, with its two
infinity sentinels: a version with a dev segment but neither pre nor post
sorts below every pre-release (NegativeInfinity), a version with no
pre-release sorts above every pre-release (Infinity). -/
inductive PreKey
  | negInf
  | val (letter : String) (n : Nat)
  | posInf
  deriving DecidableEq

/-- packaging _cmpkey pre component. -/
def preKeyOf (v : PyVersion) : PreKey :=
  match v.pre with
  | some (l, n) => PreKey.val l n
  | none => if v.post.isNone && v.dev.isSome then PreKey.negInf else PreKey.posInf

def cmpPreKey : PreKey → PreKey → Ordering
  | PreKey.negInf, PreKey.negInf => Ordering.eq
  | PreKey.negInf, _ => Ordering.lt
  | _, PreKey.negInf => Ordering.gt
  | PreKey.posInf, PreKey.posInf => Ordering.eq
  | PreKey.posInf, _ => Ordering.gt
  | _, PreKey.posInf => Ordering.lt
  | PreKey.val l1 n1, PreKey.val l2 n2 => (cmpString l1 l2).then (cmpNatO n1 n2)

/-- packaging _cmpkey post component: no post release sorts below any post
release (NegativeInfinity sentinel). -/
def cmpPostKey : Option Nat → Option Nat → Ordering
  | none, none => Ordering.eq
  | none, some _ => Ordering.lt
  | some _, none => Ordering.gt
  | some a, some b => cmpNatO a b

/-- packaging _cmpkey dev component: no dev release sorts above any dev
release (Infinity sentinel). -/
def cmpDevKey : Option Nat → Option Nat → Ordering
  | none, none => Ordering.eq
  | none, some _ => Ordering.gt
  | some _, none => Ordering.lt
  | some a, some b => cmpNatO a b

/-- Local parts compare as packaging tags them: an int part is (i, "") and a
string part is (NegativeInfinity, s), so any int part exceeds any string
part. -/
def cmpLocalPart : LocalPart → LocalPart → Ordering
  | LocalPart.num a, LocalPart.num b => cmpNatO a b
  | LocalPart.num _, LocalPart.str _ => Ordering.gt
  | LocalPart.str _, LocalPart.num _ => Ordering.lt
  | LocalPart.str a, LocalPart.str b => cmpString a b

def cmpLocalList : List LocalPart → List LocalPart → Ordering
  | [], [] => Ordering.eq
  | [], _ :: _ => Ordering.lt
  | _ :: _, [] => Ordering.gt
  | a :: as, b :: bs => (cmpLocalPart a b).then (cmpLocalList as bs)

/-- packaging _cmpkey local component: no local segment sorts below any
local segment (NegativeInfinity sentinel). -/
def cmpLocalKey : Option (List LocalPart) → Option (List LocalPart) → Ordering
  | none, none => Ordering.eq
  | none, some _ => Ordering.lt
  | some _, none => Ordering.gt
  | some a, some b => cmpLocalList a b

/-- packaging version comparison: the lexicographic six-part key of
_cmpkey — epoch, trailing-zero-trimmed release, pre (with sentinels), post,
dev and local. -/
def compareVersion (a b : PyVersion) : Ordering :=
  (cmpNatO a.epoch b.epoch).then
    ((cmpListNat (trimTrailingZeros a.release) (trimTrailingZeros b.release)).then
      ((cmpPreKey (preKeyOf a) (preKeyOf b)).then
        ((cmpPostKey a.post b.post).then
          ((cmpDevKey a.dev b.dev).then
            (cmpLocalKey a.localSeg b.localSeg)))))

/-- Strict packaging order on parsed versions. -/
def versionLt (a b : PyVersion) : Bool := compareVersion a b == Ordering.lt

/-- updater.py check_for_updates: net is the outcome of the bounded GET of
the version file (none = any requests exception, including timeout).
On a body, strip whitespace and every leading v (str.lstrip), parse both the
remote and the compiled-in current version, and report the remote version
only when it is strictly greater; any parse failure, and a parse failure of
the current version, yields none. The returned pair is (version,
current_version), the two fields of the dict the source builds. -/
def check_for_updates (net : Option String) (currentVersion : String) :
    Option (String × String) :=
  match net with
  | none => none
  | some body =>
    let latest := (pyStrip isWsChar body.data).dropWhile (fun c => c == 'v')
    match parseVersion latest, parseVersion currentVersion.data with
    | some lv, some cv =>
      if versionLt cv lv then some (String.mk latest, currentVersion) else none
    | _, _ => none

/-
===================== updater.py : should_check_updates =====================
-/

/-- C7: check_for_updates returns none on any network failure and on any
remote or current version the PEP 440 grammar rejects, never raising; on a
readable body it strips whitespace and leading v characters and compares
under the full packaging order, so remote 2.10 against current 2.9 reports
the update (numeric, not string, order), 2.9 against 2.10 does not, a
pre-release or dev release of the current version is not an update while a
post release is, and a new version is reported only when strictly greater. -/
theorem check_for_updates_spec :
    (∀ cur : String, check_for_updates none cur = none) ∧
    check_for_updates (some "2.10") "2.9" = some ("2.10", "2.9") ∧
    check_for_updates (some "2.9") "2.10" = none ∧
    check_for_updates (some "2.9") "2.9" = none ∧
    check_for_updates (some "not-a-version") "2.9" = none ∧
    check_for_updates (some " v2.10\n") "2.9" = some ("2.10", "2.9") ∧
    check_for_updates (some "2.10rc1") "2.9" = some ("2.10rc1", "2.9") ∧
    check_for_updates (some "2.10rc1") "2.10" = none ∧
    check_for_updates (some "2.10.dev1") "2.10" = none ∧
    check_for_updates (some "2.10.post1") "2.10" = some ("2.10.post1", "2.10") ∧
    (∀ body cur : String,
      parseVersion ((pyStrip isWsChar body.data).dropWhile (fun c => c == 'v')) = none →
      check_for_updates (some body) cur = none) ∧
    (∀ (body cur : String) (lv cv : PyVersion),
      parseVersion ((pyStrip isWsChar body.data).dropWhile (fun c => c == 'v')) = some lv →
      parseVersion cur.data = some cv →
      versionLt cv lv = false →
      check_for_updates (some body) cur = none) := by
  refine ⟨fun cur => rfl, rfl, rfl, rfl, rfl, rfl, rfl, rfl, rfl, rfl,
    fun body cur h => ?_, fun body cur lv cv h1 h2 h3 => ?_⟩
  · simp only [check_for_updates]
    rw [h]
  · simp only [check_for_updates]
    rw [h1, h2]
    simp [h3]

/-- Witness for the C7 theorem: the not-strictly-greater clause applied at
remote 2.9 against current 2.10. -/
theorem check_for_updates_spec_witness :
    check_for_updates (some "2.9") "2.10" = none :=
  check_for_updates_spec.2.2.2.2.2.2.2.2.2.2.2 "2.9" "2.10"
    ⟨0, [2, 9], none, none, none, none⟩ ⟨0, [2, 10], none, none, none, none⟩
    rfl rfl rfl

/-
=============================== theorems: C8 ===============================
-/

/-- The two externally visible update-flow events of one process run:
a remote version fetch (requests.get in check_for_updates) and a
cache-timestamp write attempt (update_cache_timestamp). -/
inductive UEvent
  | fetch
  | cacheWrite
  deriving DecidableEq

/-- The dispatched command, as far as the update flow is concerned: the
check-updates command, the cli-update command, or any other command
(all remaining commands trigger no update events of their own). -/
inductive CliCommand
  | plain
  | checkUpdates
  | cliUpdate
  deriving DecidableEq

/-- Events of the automatic pre-command check in the cli group callback, as
cli.py writes it (reachable only if the module had imported): when not
suppressed by the flag and should_check_updates allows it, one fetch
followed by one cache write (the write happens whether or not an update was
found; showing the notification emits no event). -/
def autoCheckTrace (noCheckUpdates shouldCheck : Bool) : List UEvent :=
  if !noCheckUpdates && shouldCheck then [UEvent.fetch, UEvent.cacheWrite] else []

/-- Events of the dispatched command body as cli.py writes it: check_updates
always fetches and then writes the cache (both branches); cli-update
fetches, and writes the cache after a successful install or when already up
to date, but not on an install failure (it exits first); every other
command emits nothing. -/
def commandTrace : CliCommand → Bool → Bool → List UEvent
  | CliCommand.plain, _, _ => []
  | CliCommand.checkUpdates, _, _ => [UEvent.fetch, UEvent.cacheWrite]
  | CliCommand.cliUpdate, updateAvailable, installOk =>
    if updateAvailable then
      if installOk then [UEvent.fetch, UEvent.cacheWrite] else [UEvent.fetch]
    else [UEvent.fetch, UEvent.cacheWrite]

/-- Update events of the post-import control flow of one process run as
written in cli.py: the group callback before the dispatched command. This
is the flow the spec describes; whether a process ever reaches it depends
on the module-loading question below. -/
def cli_run_trace (cmd : CliCommand)
    (noCheckUpdates shouldCheck updateAvailable installOk : Bool) : List UEvent :=
  autoCheckTrace noCheckUpdates shouldCheck ++ commandTrace cmd updateAvailable installOk

/-- The module-level names updater.py defines (its constants and its six
functions). -/
def updater_module_names : List String :=
  ["CACHE_FILE", "VERSION_FILE_URL", "GITHUB_INSTALL_URL", "CACHE_DURATION_HOURS",
   "get_current_version", "should_check_updates", "update_cache_timestamp",
   "check_for_updates", "install_update", "prompt_for_update"]

/-- The names cli.py imports from shortcuty_cli.updater in its from-import
at the top of the module. -/
def cli_updater_imports : List String :=
  ["check_for_updates", "should_check_updates", "update_cache_timestamp",
   "show_update_notification", "get_current_version", "install_update"]

/-- A Python from-import succeeds iff the named module defines every one of
the requested names; one missing name raises ImportError while cli.py
itself is being loaded, before any command or callback can run. -/
def cli_import_ok : Bool :=
  cli_updater_imports.all (fun n => updater_module_names.contains n)

/-- Update events of one whole process run of the staged code: the
post-import flow runs only if the from-import at the top of cli.py
succeeded; otherwise the process dies with ImportError having emitted
nothing. -/
def cli_process_trace (cmd : CliCommand)
    (noCheckUpdates shouldCheck updateAvailable installOk : Bool) : List UEvent :=
  if cli_import_ok then
    cli_run_trace cmd noCheckUpdates shouldCheck updateAvailable installOk
  else []

/-
=============================== theorems: C10 ===============================
-/

/-- C10: the claim describes the intended fetch/write discipline, but the
staged code cannot exercise it: cli.py imports show_update_notification
from shortcuty_cli.updater, a name updater.py does not define, so every
process run raises ImportError while loading cli.py, before the group
callback — no fetch or cache-timestamp write ever occurs. The post-import
flow written in cli.py, modelled by cli_run_trace, moreover performs two
fetches when the automatic pre-command check coincides with the
check-updates command, so the at-most-one-fetch guarantee would not hold of
the repaired code either. -/
theorem cli_update_flow_import_bug :
    cli_import_ok = false ∧
    cli_updater_imports.contains "show_update_notification" = true ∧
    updater_module_names.contains "show_update_notification" = false ∧
    (∀ (cmd : CliCommand) (noCheckUpdates shouldCheck updateAvailable installOk : Bool),
      cli_process_trace cmd noCheckUpdates shouldCheck updateAvailable installOk = []) ∧
    cli_run_trace CliCommand.checkUpdates false true false true =
      [UEvent.fetch, UEvent.cacheWrite, UEvent.fetch, UEvent.cacheWrite] ∧
    (cli_run_trace CliCommand.checkUpdates false true false true).count UEvent.fetch = 2 := by
  exact ⟨rfl, rfl, rfl, fun cmd a b c d => rfl, rfl, rfl⟩

/-
============ api_client.py / cli.py : upload_screenshot layering ============
-/

/-- The file a screenshot upload refers to: missing, or readable with an
extension and byte contents. -/
inductive FileSt
  | missing
  | readable (ext : String) (content : List Nat)

/-- The externally visible effect of the API client layer: one HTTP request. -/
inductive ApiEv
  | httpRequest
  deriving DecidableEq

/-- Failures of the screenshot-upload flow, one per raise site reachable
before a request is issued. -/
inductive UploadError
  | invalidUuid
  | fileNotFound
  | imageInvalid (e : ImageError)
  deriving DecidableEq

/-- api_client.py ShortcutyAPIClient.upload_screenshot: validates the UUID,
opens the file, and posts it, returning the issued network events alongside
the outcome. The method never inspects the file contents — it performs no
image validation of its own — so any readable file reaches the HTTP request
(whose server-side outcome is abstracted to ok). -/
def client_upload_screenshot (uuid : String) (file : FileSt) :
    List ApiEv × Except UploadError Unit :=
  match validate_uuid uuid with
  | Except.error _ => ([], Except.error UploadError.invalidUuid)
  | Except.ok () =>
    match file with
    | FileSt.missing => ([], Except.error UploadError.fileNotFound)
    | FileSt.readable _ _ => ([ApiEv.httpRequest], Except.ok ())

/-- cli.py upload_screenshot command: runs validate_image_file on the file
first and only then calls the client method (click.Path has already required
the file to exist and be readable). -/
def cli_upload_screenshot (uuid : String) (file : FileSt) :
    List ApiEv × Except UploadError Unit :=
  match file with
  | FileSt.missing => ([], Except.error UploadError.fileNotFound)
  | FileSt.readable ext content =>
    match validate_image_file ext content with
    | Except.error e => ([], Except.error (UploadError.imageInvalid e))
    | Except.ok () => client_upload_screenshot uuid (FileSt.readable ext content)

/-
=============================== theorems: C4 ===============================
-/

/-- C4 counterexample: a .png file whose bytes carry the JPEG signature
fails image validation, yet the API request layer's upload_screenshot,
called with a valid UUID and that file, still issues the HTTP request — the
client method performs no image validation before sending. -/
theorem client_upload_screenshot_counterexample :
    validate_image_file ".png" [0xFF, 0xD8, 0xFF] =
      Except.error ImageError.extensionMismatch ∧
    client_upload_screenshot "550e8400-e29b-41d4-a716-446655440000"
        (FileSt.readable ".png" [0xFF, 0xD8, 0xFF]) =
      ([ApiEv.httpRequest], Except.ok ()) :=
  ⟨rfl, rfl⟩

/-- C4 (amended): the image validation guarding the screenshot upload lives
in the CLI command layer, not the API request layer: the CLI command runs
validate_image_file before invoking the client, so through the CLI path a
file failing image validation produces the validation error and no network
call; the client method itself validates only the UUID before sending, and
a UUID failing validation likewise produces an error with no network call. -/
theorem upload_screenshot_validation_layering :
    (∀ (uuid ext : String) (content : List Nat) (e : ImageError),
      validate_image_file ext content = Except.error e →
      cli_upload_screenshot uuid (FileSt.readable ext content) =
        ([], Except.error (UploadError.imageInvalid e))) ∧
    (∀ (uuid : String) (file : FileSt) (e : ValidationError),
      validate_uuid uuid = Except.error e →
      client_upload_screenshot uuid file = ([], Except.error UploadError.invalidUuid)) := by
  constructor
  · intro uuid ext content e h
    simp only [cli_upload_screenshot]
    rw [h]
  · intro uuid file e h
    simp only [client_upload_screenshot]
    rw [h]

/-- Witness for the amended C4 theorem: the CLI command refuses the
mismatched .png file without any network event. -/
theorem upload_screenshot_validation_layering_witness :
    cli_upload_screenshot "550e8400-e29b-41d4-a716-446655440000"
        (FileSt.readable ".png" [0xFF, 0xD8, 0xFF]) =
      ([], Except.error (UploadError.imageInvalid ImageError.extensionMismatch)) :=
  upload_screenshot_validation_layering.1 "550e8400-e29b-41d4-a716-446655440000"
    ".png" [0xFF, 0xD8, 0xFF] ImageError.extensionMismatch rfl
